import Mathlib

/-!
Verification of the lockout decision engine of `django_auth_policy/authentication.py`.

The embedding models the `LoginAttempt` rows as a list (the attempt log),
the two lockout evaluators (`AuthenticationLockedUsername` and
`AuthenticationLockedRemoteAddress`) as pure functions of the log, the
current time and their configuration, the success hooks as log
transformers, the duration formatter, the construction-time period check,
and the whitelist pre-check.
-/

/-- A row of the `LoginAttempt` model, as used by `authentication.py`:
primary key `id`, `username`, `source_address`, `timestamp` (seconds),
and the `successful` and `lockout` flags. -/
structure LoginAttempt where
  id : Nat
  username : String
  source_address : String
  timestamp : Int
  successful : Bool
  lockout : Bool
deriving Repr, DecidableEq

/-- The characters of a string folded to lower case. -/
def lowerStr (s : String) : List Char :=
  s.data.map Char.toLower

/-- Django `username__iexact`: case-insensitive string comparison. -/
def iexact (a b : String) : Bool :=
  lowerStr a == lowerStr b

/-- Django `.exclude(pk=exclude_id)`: a row is excluded when its primary key
equals `exclude_id`; with `exclude_id = none` (Python `None`) nothing is
excluded. -/
def excludedPk (exclude_id : Option Nat) (a : LoginAttempt) : Bool :=
  match exclude_id with
  | none => false
  | some i => a.id == i

/-- The row with the greatest `id` in a list, `none` on the empty list
(Django `.order_by('-id')[0]` with the `IndexError` branch). -/
def argmaxId : List LoginAttempt → Option LoginAttempt
  | [] => none
  | a :: rest =>
    match argmaxId rest with
    | none => some a
    | some b => if b.id > a.id then some b else some a

/-- The most recent row satisfying a filter, ordered by `id` descending. -/
def latestAttempt (f : LoginAttempt → Bool) (log : List LoginAttempt) :
    Option LoginAttempt :=
  argmaxId (log.filter f)

/-- The rows counted in step 4 of `AuthenticationLockedUsername.is_locked`
(lines 158-164): username matches case-insensitively, `successful=False`,
`lockout=True`, `exclude_id` excluded, and when `period` is set only rows
with `timestamp > now - period`. -/
def usernameLockoutAttempts (period : Option Nat) (log : List LoginAttempt)
    (now : Int) (username : String) (exclude_id : Option Nat) :
    List LoginAttempt :=
  let base := log.filter fun a =>
    iexact a.username username && a.successful == false && a.lockout == true
      && !excludedPk exclude_id a
  match period with
  | none => base
  | some p => base.filter fun a => decide (now - (p : Int) < a.timestamp)

/-- `AuthenticationLockedUsername.is_locked` (lines 137-166). -/
def usernameIsLocked (max_failed : Nat) (period : Option Nat)
    (lockout_duration : Nat) (log : List LoginAttempt) (now : Int)
    (username : String) (exclude_id : Option Nat) : Bool :=
  match latestAttempt
      (fun a => iexact a.username username && !excludedPk exclude_id a) log with
  | none => false
  | some prev_login =>
    if !prev_login.lockout then false
    else if prev_login.timestamp < now - (lockout_duration : Int) then false
    else decide
      (max_failed ≤ (usernameLockoutAttempts period log now username exclude_id).length)

/-- The rows counted in step 4 of
`AuthenticationLockedRemoteAddress.is_locked` (lines 229-236): exact
address match, `lockout=True`, `exclude_id` excluded, and the optional
period window.  Unlike the username evaluator, the source does NOT filter
on `successful=False` here. -/
def addressLockoutAttempts (period : Option Nat) (log : List LoginAttempt)
    (now : Int) (source_address : String) (exclude_id : Option Nat) :
    List LoginAttempt :=
  let base := log.filter fun a =>
    a.source_address == source_address && a.lockout == true
      && !excludedPk exclude_id a
  match period with
  | none => base
  | some p => base.filter fun a => decide (now - (p : Int) < a.timestamp)

/-- `AuthenticationLockedRemoteAddress.is_locked` (lines 207-238); the
early `return` statements yield Python `None`, modelled as `false` since
the caller only tests truthiness. -/
def addressIsLocked (max_failed : Nat) (period : Option Nat)
    (lockout_duration : Nat) (log : List LoginAttempt) (now : Int)
    (source_address : String) (exclude_id : Option Nat) : Bool :=
  match latestAttempt
      (fun a => a.source_address == source_address && !excludedPk exclude_id a) log with
  | none => false
  | some prev_login =>
    if !prev_login.lockout then false
    else if prev_login.timestamp < now - (lockout_duration : Int) then false
    else decide
      (max_failed ≤ (addressLockoutAttempts period log now source_address exclude_id).length)

/-- `AuthenticationLockedUsername.auth_success` (lines 179-182): clear the
`lockout` flag on every row whose username matches case-insensitively. -/
def usernameAuthSuccess (username : String) (log : List LoginAttempt) :
    List LoginAttempt :=
  log.map fun a =>
    if iexact a.username username && a.lockout then { a with lockout := false }
    else a

/-- `AuthenticationLockedRemoteAddress.auth_success` (lines 251-254):
clear the `lockout` flag on every row with exactly this source address. -/
def addressAuthSuccess (source_address : String) (log : List LoginAttempt) :
    List LoginAttempt :=
  log.map fun a =>
    if a.source_address == source_address && a.lockout then { a with lockout := false }
    else a

/-- `_format_lockduration` (lines 105-116).  `datetime.timedelta` splits
nonnegative total seconds into `days = s / 86400` and a remainder
`s % 86400`; the tiers are then tested in source order. -/
def format_lockduration (seconds : Nat) : String :=
  if 1 < seconds / 86400 then toString (seconds / 86400) ++ " days"
  else if seconds / 86400 = 1 then "a day"
  else if 120 ≤ seconds % 86400 then toString (seconds % 86400 / 60) ++ " minutes"
  else if 60 ≤ seconds % 86400 then "a minute"
  else toString (seconds % 86400) ++ " seconds"

/-- A Django `ValidationError` carrying a machine-readable code and a
human-readable message. -/
structure ValidationErr where
  code : String
  message : String
deriving Repr, DecidableEq

/-- The lockout rejection text of both evaluators with the formatted
duration substituted for the placeholder (lines 131-132, 184-187). -/
def lockedText (duration : String) : String :=
  "Too many failed login attempts. Your account has been locked for "
    ++ duration ++ "."

/-- The `validation_msg` property of both evaluators. -/
def validation_msg (lockout_duration : Nat) : String :=
  lockedText (format_lockduration lockout_duration)

/-- `AuthenticationLockedUsername.pre_auth_check` (lines 168-177): raise
`username_locked_out` exactly when `is_locked` holds for the attempt's
username with the attempt's own primary key excluded. -/
def usernamePreAuthCheck (max_failed : Nat) (period : Option Nat)
    (lockout_duration : Nat) (log : List LoginAttempt) (now : Int)
    (loginattempt : LoginAttempt) : Option ValidationErr :=
  if usernameIsLocked max_failed period lockout_duration log now
      loginattempt.username (some loginattempt.id)
  then some ⟨"username_locked_out", validation_msg lockout_duration⟩
  else none

/-- `AuthenticationLockedRemoteAddress.pre_auth_check` (lines 240-249). -/
def addressPreAuthCheck (max_failed : Nat) (period : Option Nat)
    (lockout_duration : Nat) (log : List LoginAttempt) (now : Int)
    (loginattempt : LoginAttempt) : Option ValidationErr :=
  if addressIsLocked max_failed period lockout_duration log now
      loginattempt.source_address (some loginattempt.id)
  then some ⟨"address_locked_out", validation_msg lockout_duration⟩
  else none

/-- The construction-time assertion of both evaluator classes
(lines 134-135 and 204-205): `period is None or period > lockout_duration`,
otherwise the class fails to load with the configuration error message. -/
def checkLockoutConfig (period : Option Nat) (lockout_duration : Nat) :
    Except String Unit :=
  match period with
  | none => Except.ok ()
  | some p =>
    if lockout_duration < p then Except.ok ()
    else Except.error "Period must be longer than the lockout duration."

/-- The generic rejection text of `AuthenticationUsernameWhitelist`
(lines 269-270). -/
def whitelistText : String :=
  "Please enter a correct username and password. Note that both fields may be case-sensitive."

/-- `AuthenticationUsernameWhitelist.pre_auth_check` (lines 272-285): the
regex engine is abstracted as a `search` predicate; return on the first
pattern matching the username, otherwise raise `invalid_login`. -/
def whitelistPreAuthCheck (search : String → String → Bool)
    (whitelist : List String) (username : String) : Option ValidationErr :=
  if whitelist.any (fun pattern => search pattern username) then none
  else some ⟨"invalid_login", whitelistText⟩

/-- Spec-faithful variant of the address evaluator's step-4 count,
following the claim's words: attempts matching the key with
`successful=false AND lockout=true` (excluding `exclude_id`, window
applied when `period` is set) — i.e. the username evaluator's counting
predicate transplanted to the address key, for comparison with
`addressLockoutAttempts`. -/
def addressLockoutAttemptsSpec (period : Option Nat) (log : List LoginAttempt)
    (now : Int) (source_address : String) (exclude_id : Option Nat) :
    List LoginAttempt :=
  let base := log.filter fun a =>
    a.source_address == source_address && a.successful == false
      && a.lockout == true && !excludedPk exclude_id a
  match period with
  | none => base
  | some p => base.filter fun a => decide (now - (p : Int) < a.timestamp)

/-- A successful login attempt that still carries `lockout=True`: it is
counted by the address evaluator but not by the username evaluator. -/
def attempt1 : LoginAttempt :=
  ⟨1, "user", "2a00:db8::1", 0, true, true⟩

/-- A one-row log holding `attempt1`. -/
def log1 : List LoginAttempt := [attempt1]

theorem argmaxId_mem (l : List LoginAttempt) (a : LoginAttempt)
    (h : argmaxId l = some a) : a ∈ l := by
  induction l with
  | nil => simp [argmaxId] at h
  | cons x xs ih =>
    simp only [argmaxId] at h
    cases hrec : argmaxId xs with
    | none => rw [hrec] at h; simp at h; simp [h]
    | some b =>
      rw [hrec] at h
      by_cases hid : b.id > x.id
      · simp only [if_pos hid] at h
        simp at h
        subst h
        exact List.mem_cons_of_mem _ (ih hrec)
      · simp only [if_neg hid] at h
        simp at h
        simp [h]

theorem latestAttempt_spec (f : LoginAttempt → Bool) (log : List LoginAttempt)
    (a : LoginAttempt) (h : latestAttempt f log = some a) :
    a ∈ log ∧ f a = true := by
  have hm := argmaxId_mem _ _ h
  rwa [List.mem_filter] at hm

/-- An aged failed attempt used as witness input for lock expiry. -/
def attempt2 : LoginAttempt :=
  ⟨2, "alice", "9.9.9.9", -100, false, true⟩

/-- A one-row log holding `attempt2`. -/
def log2 : List LoginAttempt := [attempt2]

/-- C2: a key (username or source address) with zero prior attempts in the
log, after excluding `exclude_id`, is never reported locked by the
respective evaluator. -/
theorem is_locked_no_attempts_false
    (max_failed : Nat) (period : Option Nat) (lockout_duration : Nat)
    (log : List LoginAttempt) (now : Int) (u addr : String) (e : Option Nat)
    (hu : log.filter (fun a => iexact a.username u && !excludedPk e a) = [])
    (ha : log.filter (fun a => a.source_address == addr && !excludedPk e a) = []) :
    usernameIsLocked max_failed period lockout_duration log now u e = false ∧
    addressIsLocked max_failed period lockout_duration log now addr e = false := by
  constructor
  · simp [usernameIsLocked, latestAttempt, hu, argmaxId]
  · simp [addressIsLocked, latestAttempt, ha, argmaxId]

theorem is_locked_no_attempts_false_witness :
    usernameIsLocked 3 none 60 [] 0 "alice" none = false ∧
    addressIsLocked 3 none 60 [] 0 "1.2.3.4" none = false :=
  is_locked_no_attempts_false 3 none 60 [] 0 "alice" "1.2.3.4" none rfl rfl

/-- C4: when the most recent non-excluded attempt for a key is strictly
older than `now - lockout_duration`, the lock has expired and `is_locked`
returns false for that key, regardless of any counts. -/
theorem is_locked_expired_lock_false
    (max_failed : Nat) (period : Option Nat) (lockout_duration : Nat)
    (log : List LoginAttempt) (now : Int) (u addr : String) (e : Option Nat)
    (prevU prevA : LoginAttempt) :
    (latestAttempt (fun a => iexact a.username u && !excludedPk e a) log = some prevU →
      prevU.timestamp < now - (lockout_duration : Int) →
      usernameIsLocked max_failed period lockout_duration log now u e = false) ∧
    (latestAttempt (fun a => a.source_address == addr && !excludedPk e a) log = some prevA →
      prevA.timestamp < now - (lockout_duration : Int) →
      addressIsLocked max_failed period lockout_duration log now addr e = false) := by
  constructor
  · intro hl ht
    by_cases hlock : prevU.lockout = true
    · simp [usernameIsLocked, hl, hlock, ht]
    · simp [usernameIsLocked, hl, hlock]
  · intro hl ht
    by_cases hlock : prevA.lockout = true
    · simp [addressIsLocked, hl, hlock, ht]
    · simp [addressIsLocked, hl, hlock]

theorem is_locked_expired_lock_false_witness :
    usernameIsLocked 1 none 60 log2 0 "alice" none = false ∧
    addressIsLocked 1 none 60 log2 0 "9.9.9.9" none = false :=
  ⟨(is_locked_expired_lock_false 1 none 60 log2 0 "alice" "9.9.9.9" none
      attempt2 attempt2).1 rfl (by decide),
   (is_locked_expired_lock_false 1 none 60 log2 0 "alice" "9.9.9.9" none
      attempt2 attempt2).2 rfl (by decide)⟩

/-- C5: running the success hook for a key and then evaluating `is_locked`
for that same key yields false, whatever the prior log contents, the
threshold, the window or the excluded id. -/
theorem auth_success_resets_lock
    (max_failed : Nat) (period : Option Nat) (lockout_duration : Nat)
    (log : List LoginAttempt) (now : Int) (u addr : String) (e : Option Nat) :
    usernameIsLocked max_failed period lockout_duration
      (usernameAuthSuccess u log) now u e = false ∧
    addressIsLocked max_failed period lockout_duration
      (addressAuthSuccess addr log) now addr e = false := by
  constructor
  · cases h : latestAttempt (fun a => iexact a.username u && !excludedPk e a)
        (usernameAuthSuccess u log) with
    | none => simp [usernameIsLocked, h]
    | some prev =>
      obtain ⟨hmem, hpred⟩ := latestAttempt_spec _ _ _ h
      have hiex : iexact prev.username u = true := by
        simp [Bool.and_eq_true] at hpred
        exact hpred.1
      have hlock : prev.lockout = false := by
        simp only [usernameAuthSuccess, List.mem_map] at hmem
        obtain ⟨orig, _, heq⟩ := hmem
        by_cases hc : (iexact orig.username u && orig.lockout) = true
        · rw [if_pos hc] at heq
          rw [← heq]
        · rw [if_neg hc] at heq
          subst heq
          simp [Bool.and_eq_true, hiex] at hc
          simpa using hc
      simp [usernameIsLocked, h, hlock]
  · cases h : latestAttempt (fun a => a.source_address == addr && !excludedPk e a)
        (addressAuthSuccess addr log) with
    | none => simp [addressIsLocked, h]
    | some prev =>
      obtain ⟨hmem, hpred⟩ := latestAttempt_spec _ _ _ h
      have haddr : (prev.source_address == addr) = true := by
        simp [Bool.and_eq_true] at hpred
        simp [hpred.1]
      have hlock : prev.lockout = false := by
        simp only [addressAuthSuccess, List.mem_map] at hmem
        obtain ⟨orig, _, heq⟩ := hmem
        by_cases hc : (orig.source_address == addr && orig.lockout) = true
        · rw [if_pos hc] at heq
          rw [← heq]
        · rw [if_neg hc] at heq
          subst heq
          simp [Bool.and_eq_true, haddr] at hc
          simpa using hc
      simp [addressIsLocked, h, hlock]

/-- C6: the construction-time check of both evaluator classes succeeds
exactly when `period` is unset or strictly exceeds `lockout_duration`;
any configuration with `period` set and not exceeding `lockout_duration`
fails with the configuration error message and produces nothing else. -/
theorem period_config_check_characterization
    (period : Option Nat) (lockout_duration : Nat) :
    (checkLockoutConfig period lockout_duration = Except.ok () ↔
      (period = none ∨ ∃ p, period = some p ∧ lockout_duration < p)) ∧
    ((∃ msg, checkLockoutConfig period lockout_duration = Except.error msg) ↔
      ∃ p, period = some p ∧ p ≤ lockout_duration) := by
  cases period with
  | none => simp [checkLockoutConfig]
  | some p =>
    by_cases h : lockout_duration < p
    · constructor
      · simp [checkLockoutConfig, h]
      · simp [checkLockoutConfig, h]
    · constructor
      · simp [checkLockoutConfig, h]
      · simp [checkLockoutConfig, h]
        omega

/-- C7: the duration formatter applies its tiers in first-match order with
truncating integer arithmetic: more than one whole day gives a day count,
exactly one whole day gives the phrase for one day even with a nonzero
remainder, then (below one day) at least 120 remaining seconds give
truncated minutes, at least 60 give the phrase for one minute, and
anything below 60 gives the second count; with the concrete examples from
the claim. -/
theorem format_lockduration_tiers (s : Nat) :
    (1 < s / 86400 → format_lockduration s = toString (s / 86400) ++ " days") ∧
    (s / 86400 = 1 → format_lockduration s = "a day") ∧
    (s / 86400 = 0 → 120 ≤ s % 86400 →
      format_lockduration s = toString (s % 86400 / 60) ++ " minutes") ∧
    (s / 86400 = 0 → 60 ≤ s % 86400 → s % 86400 < 120 →
      format_lockduration s = "a minute") ∧
    (s / 86400 = 0 → s % 86400 < 60 →
      format_lockduration s = toString (s % 86400) ++ " seconds") ∧
    format_lockduration 86401 = "a day" ∧
    format_lockduration 90000 = "a day" ∧
    format_lockduration 7200 = "120 minutes" ∧
    format_lockduration 90 = "a minute" ∧
    format_lockduration 45 = "45 seconds" := by
  refine ⟨?_, ?_, ?_, ?_, ?_, by decide, by decide, by decide, by decide, by decide⟩
  · intro h
    unfold format_lockduration
    rw [if_pos h]
  · intro h
    unfold format_lockduration
    rw [if_neg (by omega), if_pos h]
  · intro h1 h2
    unfold format_lockduration
    rw [if_neg (by omega), if_neg (by omega), if_pos h2]
  · intro h1 h2 h3
    unfold format_lockduration
    rw [if_neg (by omega), if_neg (by omega), if_neg (by omega), if_pos h2]
  · intro h1 h2
    unfold format_lockduration
    rw [if_neg (by omega), if_neg (by omega), if_neg (by omega), if_neg (by omega)]

theorem format_lockduration_tiers_witness :
    format_lockduration 172900 = toString (172900 / 86400) ++ " days" :=
  (format_lockduration_tiers 172900).1 (by decide)

/-- C10: with an empty whitelist the whitelist pre-check rejects every
username, the empty string included, with code invalid_login. -/
theorem empty_whitelist_rejects_all
    (search : String → String → Bool) (username : String) :
    whitelistPreAuthCheck search [] username =
      some ⟨"invalid_login", whitelistText⟩ := by
  simp [whitelistPreAuthCheck]

/-- A recent failed lockout attempt used as witness input for thresholds. -/
def attempt3 : LoginAttempt :=
  ⟨3, "alice", "8.8.8.8", 0, false, true⟩

/-- A one-row log holding `attempt3`. -/
def log3 : List LoginAttempt := [attempt3]

/-- C1 counterexample: in `log1` the only attempt has successful=true and
lockout=true.  The address evaluator's step-4 count includes it (count 1,
and the key reports locked with threshold 1), although the predicate the
claim states — successful=false AND lockout=true, the username
evaluator's — matches no attempt at all. -/
theorem address_count_includes_successful_attempts :
    (addressLockoutAttempts none log1 0 "2a00:db8::1" none).length = 1 ∧
    (addressLockoutAttemptsSpec none log1 0 "2a00:db8::1" none).length = 0 ∧
    addressIsLocked 1 none 60 log1 0 "2a00:db8::1" none = true :=
  ⟨rfl, rfl, rfl⟩

/-- C1 amended: the step-4 counts characterized row by row.  The username
evaluator counts exactly the non-excluded attempts matching the username
case-insensitively with successful=false and lockout=true (windowed when
period is set); the address evaluator counts exactly the non-excluded
attempts with an exact address match and lockout=true — without any
successful=false requirement, unlike the username evaluator. -/
theorem lockout_count_characterization
    (period : Option Nat) (log : List LoginAttempt) (now : Int)
    (u addr : String) (e : Option Nat) (a : LoginAttempt) :
    (a ∈ usernameLockoutAttempts period log now u e ↔
      a ∈ log ∧ iexact a.username u = true ∧ a.successful = false ∧
        a.lockout = true ∧ excludedPk e a = false ∧
        (∀ p, period = some p → now - (p : Int) < a.timestamp)) ∧
    (a ∈ addressLockoutAttempts period log now addr e ↔
      a ∈ log ∧ a.source_address = addr ∧ a.lockout = true ∧
        excludedPk e a = false ∧
        (∀ p, period = some p → now - (p : Int) < a.timestamp)) := by
  cases period with
  | none =>
    constructor
    · simp only [usernameLockoutAttempts, List.mem_filter, Bool.and_eq_true,
        beq_iff_eq, Bool.not_eq_true']
      constructor
      · rintro ⟨hm, ⟨⟨hu, hs⟩, hl⟩, he⟩
        exact ⟨hm, hu, hs, hl, he, fun p hp => Option.noConfusion hp⟩
      · rintro ⟨hm, hu, hs, hl, he, _⟩
        exact ⟨hm, ⟨⟨hu, hs⟩, hl⟩, he⟩
    · simp only [addressLockoutAttempts, List.mem_filter, Bool.and_eq_true,
        beq_iff_eq, Bool.not_eq_true']
      constructor
      · rintro ⟨hm, ⟨ha, hl⟩, he⟩
        exact ⟨hm, ha, hl, he, fun p hp => Option.noConfusion hp⟩
      · rintro ⟨hm, ha, hl, he, _⟩
        exact ⟨hm, ⟨ha, hl⟩, he⟩
  | some p =>
    constructor
    · simp only [usernameLockoutAttempts, List.mem_filter, Bool.and_eq_true,
        beq_iff_eq, Bool.not_eq_true', decide_eq_true_eq]
      constructor
      · rintro ⟨⟨hm, ⟨⟨hu, hs⟩, hl⟩, he⟩, ht⟩
        refine ⟨hm, hu, hs, hl, he, fun q hq => ?_⟩
        cases hq
        exact ht
      · rintro ⟨hm, hu, hs, hl, he, ht⟩
        exact ⟨⟨hm, ⟨⟨hu, hs⟩, hl⟩, he⟩, ht p rfl⟩
    · simp only [addressLockoutAttempts, List.mem_filter, Bool.and_eq_true,
        beq_iff_eq, Bool.not_eq_true', decide_eq_true_eq]
      constructor
      · rintro ⟨⟨hm, ⟨ha, hl⟩, he⟩, ht⟩
        refine ⟨hm, ha, hl, he, fun q hq => ?_⟩
        cases hq
        exact ht
      · rintro ⟨hm, ha, hl, he, ht⟩
        exact ⟨⟨hm, ⟨ha, hl⟩, he⟩, ht p rfl⟩

theorem lockout_count_characterization_witness :
    attempt1 ∈ addressLockoutAttempts none log1 0 "2a00:db8::1" none :=
  (lockout_count_characterization none log1 0 "user" "2a00:db8::1" none attempt1).2.mpr
    ⟨by simp [log1], rfl, rfl, rfl, fun p hp => Option.noConfusion hp⟩

/-- C3 counterexample: in `log1` the most recent attempt for the address
has lockout=true and lies within the lockout window, the count of
qualifying attempts in the claim's sense (failed AND lockout=true) is
0 = max_failed - 1 for max_failed = 1, so the claim demands not-locked;
yet the address evaluator reports locked, because its count also includes
the successful attempt. -/
theorem address_locked_below_failed_threshold :
    latestAttempt (fun a => a.source_address == "2a00:db8::1" && !excludedPk none a) log1
      = some attempt1 ∧
    attempt1.lockout = true ∧
    ¬ attempt1.timestamp < (0 : Int) - ((60 : Nat) : Int) ∧
    (addressLockoutAttemptsSpec none log1 0 "2a00:db8::1" none).length = 1 - 1 ∧
    addressIsLocked 1 none 60 log1 0 "2a00:db8::1" none = true :=
  ⟨rfl, rfl, by decide, rfl, rfl⟩

/-- C3 amended: when the most recent non-excluded attempt for a key has
lockout=true and its timestamp is within the last lockout_duration
seconds, is_locked returns true exactly when the evaluator's own step-4
count reaches max_failed — for the username evaluator the count of
failed lockout=true attempts, for the address evaluator the count of all
lockout=true attempts, successful ones included (each windowed when
period is set and with exclude_id excluded); in particular a count of
max_failed - 1 yields false. -/
theorem is_locked_threshold_characterization
    (max_failed : Nat) (period : Option Nat) (lockout_duration : Nat)
    (log : List LoginAttempt) (now : Int) (u addr : String) (e : Option Nat)
    (prevU prevA : LoginAttempt) :
    (latestAttempt (fun a => iexact a.username u && !excludedPk e a) log = some prevU →
      prevU.lockout = true →
      ¬ prevU.timestamp < now - (lockout_duration : Int) →
      (usernameIsLocked max_failed period lockout_duration log now u e = true ↔
        max_failed ≤ (usernameLockoutAttempts period log now u e).length)) ∧
    (latestAttempt (fun a => a.source_address == addr && !excludedPk e a) log = some prevA →
      prevA.lockout = true →
      ¬ prevA.timestamp < now - (lockout_duration : Int) →
      (addressIsLocked max_failed period lockout_duration log now addr e = true ↔
        max_failed ≤ (addressLockoutAttempts period log now addr e).length)) := by
  constructor
  · intro hl hlock htime
    simp [usernameIsLocked, hl, hlock, htime]
  · intro hl hlock htime
    simp [addressIsLocked, hl, hlock, htime]

theorem is_locked_threshold_characterization_witness :
    usernameIsLocked 1 none 60 log3 0 "alice" none = true ↔
      1 ≤ (usernameLockoutAttempts none log3 0 "alice" none).length :=
  (is_locked_threshold_characterization 1 none 60 log3 0 "alice" "8.8.8.8" none
    attempt3 attempt3).1 rfl rfl (by decide)

/-- C8: the username evaluator keys case-insensitively — is_locked agrees
on any two usernames equal up to letter case for every log and exclude
id, and auth_success clears the lockout flag of every row whose username
is a case variant of the successful one — while the address evaluator
matches exactly: in `log1` the recorded lower-case address is locked but
its upper-case spelling is not. -/
theorem username_case_insensitive_address_exact :
    (∀ (max_failed : Nat) (period : Option Nat) (lockout_duration : Nat)
        (log : List LoginAttempt) (now : Int) (e : Option Nat) (u1 u2 : String),
      lowerStr u1 = lowerStr u2 →
      usernameIsLocked max_failed period lockout_duration log now u1 e =
        usernameIsLocked max_failed period lockout_duration log now u2 e) ∧
    (∀ (log : List LoginAttempt) (u : String) (a : LoginAttempt),
      a ∈ usernameAuthSuccess u log → lowerStr a.username = lowerStr u →
      a.lockout = false) ∧
    (addressIsLocked 1 none 60 log1 0 "2a00:db8::1" none = true ∧
      addressIsLocked 1 none 60 log1 0 "2A00:DB8::1" none = false) := by
  refine ⟨?_, ?_, rfl, rfl⟩
  · intro max_failed period lockout_duration log now e u1 u2 h
    simp only [usernameIsLocked, usernameLockoutAttempts, latestAttempt, iexact, h]
  · intro log u a hmem h
    simp only [usernameAuthSuccess, List.mem_map] at hmem
    obtain ⟨orig, _, heq⟩ := hmem
    by_cases hc : (iexact orig.username u && orig.lockout) = true
    · rw [if_pos hc] at heq
      rw [← heq]
    · rw [if_neg hc] at heq
      subst heq
      have hiex : iexact orig.username u = true := by
        simp [iexact, h]
      simp [Bool.and_eq_true, hiex] at hc
      simpa using hc

theorem username_case_insensitive_address_exact_witness :
    usernameIsLocked 1 none 60 log3 0 "Alice" none =
      usernameIsLocked 1 none 60 log3 0 "aLICE" none :=
  username_case_insensitive_address_exact.1 1 none 60 log3 0 none "Alice" "aLICE"
    (by decide)

/-- C9: each lockout pre-check raises exactly when is_locked holds for
the attempt's key with the attempt's own id excluded — with code
username_locked_out for the username evaluator and address_locked_out for
the address evaluator, the message embedding the human-formatted
configured lockout_duration — and raises nothing when the key is not
locked. -/
theorem pre_auth_check_characterization
    (max_failed : Nat) (period : Option Nat) (lockout_duration : Nat)
    (log : List LoginAttempt) (now : Int) (la : LoginAttempt) :
    (usernamePreAuthCheck max_failed period lockout_duration log now la = none ↔
      usernameIsLocked max_failed period lockout_duration log now
        la.username (some la.id) = false) ∧
    ((∃ err, usernamePreAuthCheck max_failed period lockout_duration log now la
          = some err ∧
        err.code = "username_locked_out" ∧
        ∃ x y, err.message = x ++ format_lockduration lockout_duration ++ y) ↔
      usernameIsLocked max_failed period lockout_duration log now
        la.username (some la.id) = true) ∧
    (addressPreAuthCheck max_failed period lockout_duration log now la = none ↔
      addressIsLocked max_failed period lockout_duration log now
        la.source_address (some la.id) = false) ∧
    ((∃ err, addressPreAuthCheck max_failed period lockout_duration log now la
          = some err ∧
        err.code = "address_locked_out" ∧
        ∃ x y, err.message = x ++ format_lockduration lockout_duration ++ y) ↔
      addressIsLocked max_failed period lockout_duration log now
        la.source_address (some la.id) = true) := by
  refine ⟨?_, ?_, ?_, ?_⟩
  · by_cases h : usernameIsLocked max_failed period lockout_duration log now
        la.username (some la.id) = true
    · simp [usernamePreAuthCheck, h]
    · simp only [Bool.not_eq_true] at h
      simp [usernamePreAuthCheck, h]
  · by_cases h : usernameIsLocked max_failed period lockout_duration log now
        la.username (some la.id) = true
    · simp only [usernamePreAuthCheck, h, if_true, h, iff_true]
      refine ⟨_, rfl, rfl, ?_⟩
      exact ⟨"Too many failed login attempts. Your account has been locked for ",
        ".", rfl⟩
    · simp only [Bool.not_eq_true] at h
      simp [usernamePreAuthCheck, h]
  · by_cases h : addressIsLocked max_failed period lockout_duration log now
        la.source_address (some la.id) = true
    · simp [addressPreAuthCheck, h]
    · simp only [Bool.not_eq_true] at h
      simp [addressPreAuthCheck, h]
  · by_cases h : addressIsLocked max_failed period lockout_duration log now
        la.source_address (some la.id) = true
    · simp only [addressPreAuthCheck, h, if_true, h, iff_true]
      refine ⟨_, rfl, rfl, ?_⟩
      exact ⟨"Too many failed login attempts. Your account has been locked for ",
        ".", rfl⟩
    · simp only [Bool.not_eq_true] at h
      simp [addressPreAuthCheck, h]

theorem pre_auth_check_characterization_witness :
    usernamePreAuthCheck 1 none 60 [] 0 attempt1 = none :=
  (pre_auth_check_characterization 1 none 60 [] 0 attempt1).1.mpr rfl
